import Mathlib

/-!
Shallow embedding of the EasyServe marketplace backend: the booking
lifecycle, bidding engine and wallet settlement implemented in
`controllers/bookingController.js` and the service-request controller.
MongoDB documents become Lean structures; each Express handler becomes a
pure function from an explicit `Store` (the database state) to a tagged
result together with the post-state.  HTTP error responses are modelled
by `ApiError`, classifying each concrete 400/403/404 response of the
source by the spec's error taxonomy.
-/

namespace EasyServe

/-- Error taxonomy: each constructor carries the response message of the
corresponding HTTP error in the source (404 → notFound, 403 → forbidden,
400 → validationFailure / conflict / invalidState by cause). -/
inductive ApiError where
  | notFound (msg : String)
  | validationFailure (msg : String)
  | conflict (msg : String)
  | invalidState (msg : String)
  | forbidden (msg : String)
deriving Repr, DecidableEq

/-- A booking-scoped chat message (`booking.messages` entries). -/
structure Message where
  senderRole : String
  senderId : String
  text : String
  createdAt : Nat
deriving Repr, DecidableEq

/-- A wallet ledger entry (`wallet.transactions` entries). -/
structure Txn where
  type : String
  amount : Int
  reference : String
  status : String
  bookingId : Option String
  createdAt : Nat
deriving Repr, DecidableEq

/-- A provider wallet document. -/
structure Wallet where
  userId : String
  balance : Int
  heldBalance : Int
  totalEarned : Int
  transactions : List Txn
deriving Repr, DecidableEq

/-- A booking document.  Schema defaults (per spec §3: created with both
completion flags false, no rating/review, empty message list) apply at
construction sites. -/
structure Booking where
  id : String
  requestId : String
  bidId : Option String
  userId : String
  userName : String
  providerId : String
  providerName : String
  agreedPrice : Int
  status : String
  completedByProvider : Bool
  completedByUser : Bool
  userRating : Option Int
  userReview : Option String
  messages : List Message
deriving Repr, DecidableEq

/-- A bid document. -/
structure Bid where
  id : String
  serviceRequestId : String
  providerId : String
  providerName : String
  proposedAmount : Int
  note : Option String
  estimatedTime : Option String
  status : String
deriving Repr, DecidableEq

/-- A service-request document. -/
structure ServiceRequest where
  id : String
  userId : String
  userName : String
  categoryId : String
  categoryName : String
  description : String
  requestType : String
  fixedAmount : Option Int
  biddingEndDate : Option Nat
  minBidAmount : Option Int
  maxBidAmount : Option Int
  status : String
  assignedProviderId : Option String
  assignedProviderName : Option String
  finalAmount : Option Int
deriving Repr, DecidableEq

/-- A provider document (only the fields the modelled operations read). -/
structure Provider where
  id : String
  name : String
deriving Repr, DecidableEq

/-- The database state: the collections the modelled operations touch. -/
structure Store where
  requests : List ServiceRequest
  bids : List Bid
  bookings : List Booking
  wallets : List Wallet
  providers : List Provider
deriving Repr, DecidableEq

/-- `Booking.findById(id)`. -/
def findBooking (s : Store) (id : String) : Option Booking :=
  s.bookings.find? (fun b => b.id == id)

/-- `ServiceRequest.findById(id)`. -/
def findRequest (s : Store) (id : String) : Option ServiceRequest :=
  s.requests.find? (fun r => r.id == id)

/-- `Bid.findById(id)`. -/
def findBid (s : Store) (id : String) : Option Bid :=
  s.bids.find? (fun b => b.id == id)

/-- `Provider.findById(id)`. -/
def findProvider (s : Store) (id : String) : Option Provider :=
  s.providers.find? (fun p => p.id == id)

/-- `Wallet.findOne({ userId })`. -/
def findWallet (s : Store) (uid : String) : Option Wallet :=
  s.wallets.find? (fun w => w.userId == uid)

/-- `booking.save()`: persist the (possibly updated) document under its id. -/
def saveBooking (s : Store) (b' : Booking) : Store :=
  { s with bookings := s.bookings.map (fun x => if x.id == b'.id then b' else x) }

/-- `serviceRequest.save()`. -/
def saveRequest (s : Store) (r' : ServiceRequest) : Store :=
  { s with requests := s.requests.map (fun x => if x.id == r'.id then r' else x) }

/-- `providerWallet.save()`. -/
def saveWallet (s : Store) (w' : Wallet) : Store :=
  { s with wallets := s.wallets.map (fun x => if x.userId == w'.userId then w' else x) }

/-- JavaScript `str.slice(-6)`: the last six characters (the whole string
when shorter). -/
def sliceLast6 (str : String) : String :=
  String.mk (str.data.drop (str.data.length - 6))

/-- The credit transaction pushed by the settlement step of
`userConfirmBooking`. -/
def creditTxn (finalId : String) (amount : Int) (now : Nat) : Txn :=
  { type := "credit"
    amount := amount
    reference := "Booking #" ++ sliceLast6 finalId
    status := "completed"
    bookingId := some finalId
    createdAt := now }

/-- `userConfirmBooking` (bookingController.js lines 242-303): the client
confirms completion; on success the booking is saved as
`payment-released` and then the provider wallet is credited.  A missing
wallet is reported after the booking update has already been persisted. -/
def userConfirmBooking (finalId : String) (rating : Int) (review : String)
    (now : Nat) (s : Store) : Except ApiError Booking × Store :=
  match findBooking s finalId with
  | none => (.error (.notFound "Booking not found"), s)
  | some booking =>
    if booking.status = "payment-released" ∨ booking.completedByUser = true then
      (.error (.conflict "Booking already confirmed"), s)
    else if booking.completedByProvider = false then
      (.error (.invalidState "Provider has not completed the service yet"), s)
    else
      let booking' := { booking with
        completedByUser := true
        userRating := some rating
        userReview := some review
        status := "payment-released" }
      let s1 := saveBooking s booking'
      match findWallet s1 booking'.providerId with
      | none => (.error (.notFound "Provider wallet not found"), s1)
      | some w =>
        let w' := { w with
          balance := w.balance + booking'.agreedPrice
          totalEarned := w.totalEarned + booking'.agreedPrice
          transactions := w.transactions ++ [creditTxn finalId booking'.agreedPrice now] }
        (.ok booking', saveWallet s1 w')

/-- The status whitelist of `updateBookingStatus`. -/
def validStatuses : List String :=
  ["confirmed", "in-progress", "completed", "cancelled", "disputed"]

/-- `updateBookingStatus` (bookingController.js lines 66-93). -/
def updateBookingStatus (id status : String) (s : Store) :
    Except ApiError Booking × Store :=
  if status ∉ validStatuses then
    (.error (.validationFailure "Invalid status"), s)
  else
    match findBooking s id with
    | none => (.error (.notFound "Booking not found"), s)
    | some b =>
      let b' := { b with status := status }
      (.ok b', saveBooking s b')

/-- `startService` (bookingController.js lines 189-202). -/
def startService (id : String) (s : Store) : Except ApiError Booking × Store :=
  match findBooking s id with
  | none => (.error (.notFound "Booking not found"), s)
  | some b =>
    let b' := { b with status := "in-progress" }
    (.ok b', saveBooking s b')

/-- `providerCompleteService` (bookingController.js lines 205-218). -/
def providerCompleteService (id : String) (s : Store) :
    Except ApiError Booking × Store :=
  match findBooking s id with
  | none => (.error (.notFound "Booking not found"), s)
  | some b =>
    let b' := { b with completedByProvider := true }
    (.ok b', saveBooking s b')

/-- `getBookingMessages` (bookingController.js lines 117-136): read-only,
returns the message list (empty list when none). -/
def getBookingMessages (id : String) (s : Store) :
    Except ApiError (List Message) :=
  match findBooking s id with
  | none => .error (.notFound "Booking not found")
  | some b => .ok b.messages

/-- JavaScript `str.trim()`: strip leading and trailing whitespace.
Modelled structurally over the character list so that it evaluates by
kernel reduction. -/
def jsTrim (s : String) : String :=
  String.mk (((s.data.dropWhile Char.isWhitespace).reverse.dropWhile
    Char.isWhitespace).reverse)

/-- `sendBookingMessage` (bookingController.js lines 139-187): appends one
trimmed message; the sender (from the auth context) must be a party of
the booking. -/
def sendBookingMessage (id message userId userRole : String) (now : Nat)
    (s : Store) : Except ApiError (List Message) × Store :=
  if jsTrim message = "" then
    (.error (.validationFailure "Message cannot be empty"), s)
  else
    match findBooking s id with
    | none => (.error (.notFound "Booking not found"), s)
    | some booking =>
      if booking.userId ≠ userId ∧ booking.providerId ≠ userId then
        (.error (.forbidden "Unauthorized"), s)
      else
        let newMessage : Message :=
          { senderRole := userRole, senderId := userId
            text := jsTrim message, createdAt := now }
        let booking' := { booking with messages := booking.messages ++ [newMessage] }
        (.ok booking'.messages, saveBooking s booking')

/-- `createBooking` (bookingController.js lines 24-63): direct creation,
rejected when a booking for the same bid already exists.  `newId` stands
for the fresh document id the database generates. -/
def createBooking (requestId : String) (bidId : Option String)
    (userId userName providerId providerName : String) (agreedPrice : Int)
    (newId : String) (s : Store) : Except ApiError Booking × Store :=
  match s.bookings.find? (fun b => b.bidId == bidId) with
  | some _ => (.error (.conflict "Booking already exists for this bid"), s)
  | none =>
    let b : Booking :=
      { id := newId, requestId := requestId, bidId := bidId
        userId := userId, userName := userName
        providerId := providerId, providerName := providerName
        agreedPrice := agreedPrice, status := "confirmed"
        completedByProvider := false, completedByUser := false
        userRating := none, userReview := none, messages := [] }
    (.ok b, { s with bookings := s.bookings ++ [b] })

/-- Input of `createServiceRequest` (the request body).  Fields the client
may omit are `Option`; the source copies them through unvalidated. -/
structure CreateRequestInput where
  userId : String
  userName : String
  categoryId : String
  categoryName : String
  description : String
  requestType : String
  fixedAmount : Option Int
  biddingEndDate : Option Nat
  minBidAmount : Option Int
  maxBidAmount : Option Int
deriving Repr, DecidableEq

/-- `createServiceRequest` (service-request controller lines 132-176).
Modelled from the spec: the ServiceRequest schema does not enforce the
presence of the type-conditional fields (spec §4.1: "the reference
implementation does not enforce this strictly"), so a missing
`fixedAmount` on a fixed request is stored as null. -/
def createServiceRequest (inp : CreateRequestInput) (newId : String)
    (s : Store) : ServiceRequest × Store :=
  let sr : ServiceRequest :=
    { id := newId
      userId := inp.userId, userName := inp.userName
      categoryId := inp.categoryId, categoryName := inp.categoryName
      description := inp.description
      requestType := inp.requestType
      fixedAmount := if inp.requestType = "fixed" then inp.fixedAmount else none
      biddingEndDate := if inp.requestType = "bidding" then inp.biddingEndDate else none
      minBidAmount := if inp.requestType = "bidding" then inp.minBidAmount else none
      maxBidAmount := if inp.requestType = "bidding" then inp.maxBidAmount else none
      status := "open"
      assignedProviderId := none, assignedProviderName := none
      finalAmount := none }
  (sr, { s with requests := s.requests ++ [sr] })

/-- `placeBid` (service-request controller lines 208-270).  Modelled from
the spec: the Bid schema's default status `pending` (spec §3) applies to
the newly created bid.  The final `if` mirrors the source's (always-true
at that point) re-check of `serviceRequest.status === 'open'` before
flipping it to `bidding`. -/
def placeBid (serviceRequestId providerId providerName : String)
    (proposedAmount : Int) (note estimatedTime : Option String)
    (newId : String) (s : Store) : Except ApiError Bid × Store :=
  match findRequest s serviceRequestId with
  | none => (.error (.notFound "Service request not found"), s)
  | some serviceRequest =>
    if serviceRequest.requestType ≠ "bidding" then
      (.error (.invalidState "This request is not open for bidding"), s)
    else if serviceRequest.status ≠ "open" then
      (.error (.invalidState "Bidding is closed for this request"), s)
    else
      match s.bids.find? (fun b =>
          b.serviceRequestId == serviceRequestId && b.providerId == providerId) with
      | some _ => (.error (.conflict "You have already placed a bid"), s)
      | none =>
        let bid : Bid :=
          { id := newId, serviceRequestId := serviceRequestId
            providerId := providerId, providerName := providerName
            proposedAmount := proposedAmount, note := note
            estimatedTime := estimatedTime, status := "pending" }
        let s1 := { s with bids := s.bids ++ [bid] }
        let s2 :=
          if serviceRequest.status = "open" then
            saveRequest s1 { serviceRequest with status := "bidding" }
          else s1
        (.ok bid, s2)

/-- `acceptBid` (service-request controller lines 279-325): assigns the
request and creates the booking.  `newId` stands for the fresh booking
document id. -/
def acceptBid (bidId : String) (newId : String) (s : Store) :
    Except ApiError (ServiceRequest × Booking) × Store :=
  if bidId = "" then (.error (.validationFailure "Missing bidId"), s)
  else
    match findBid s bidId with
    | none => (.error (.notFound "Bid not found"), s)
    | some bid =>
      match findRequest s bid.serviceRequestId with
      | none => (.error (.notFound "Service request not found"), s)
      | some request =>
        if request.status = "assigned" then
          (.error (.invalidState "Request already assigned"), s)
        else
          match findProvider s bid.providerId with
          | none => (.error (.notFound "Provider not found"), s)
          | some provider =>
            let request' := { request with
              assignedProviderId := some provider.id
              assignedProviderName := some provider.name
              status := "assigned"
              finalAmount := some bid.proposedAmount }
            let s1 := saveRequest s request'
            let booking : Booking :=
              { id := newId, requestId := request.id, bidId := some bid.id
                userId := request.userId, userName := request.userName
                providerId := provider.id, providerName := provider.name
                agreedPrice := bid.proposedAmount, status := "confirmed"
                completedByProvider := false, completedByUser := false
                userRating := none, userReview := none, messages := [] }
            (.ok (request', booking), { s1 with bookings := s1.bookings ++ [booking] })

/-- Insert a bid into a list sorted ascending by `proposedAmount`. -/
def insertByAmount (b : Bid) : List Bid → List Bid
  | [] => [b]
  | c :: cs =>
    if b.proposedAmount < c.proposedAmount then b :: c :: cs
    else c :: insertByAmount b cs

/-- Sort ascending by `proposedAmount` (the `.sort({proposedAmount: 1})`
of the source; order among equal amounts is not a business rule). -/
def sortByAmount (l : List Bid) : List Bid := l.foldr insertByAmount []

/-- `getBidsByRequest` (service-request controller lines 179-194):
the request's bids, ascending by proposed amount. -/
def getBidsByRequest (serviceRequestId : String) (s : Store) : List Bid :=
  sortByAmount (s.bids.filter (fun b => b.serviceRequestId == serviceRequestId))

/-- `updateRequestStatusByProvider` (provider controller lines 52-62):
writes an arbitrary status onto a request, no validation. -/
def updateRequestStatusByProvider (id status : String) (s : Store) : Store :=
  match findRequest s id with
  | none => s
  | some r => saveRequest s { r with status := status }

/-- Number of bookings recorded for a given bid id. -/
def bookingsForBid (s : Store) (bidId : String) : Nat :=
  (s.bookings.filter (fun b => b.bidId == some bidId)).length

/-- The assigned copy of a request as written by `acceptBid`. -/
def assignRequest (request : ServiceRequest) (provider : Provider)
    (amount : Int) : ServiceRequest :=
  { request with
    assignedProviderId := some provider.id
    assignedProviderName := some provider.name
    status := "assigned"
    finalAmount := some amount }

/-- The booking document created by `acceptBid`. -/
def bookingOfBid (newId : String) (request : ServiceRequest)
    (provider : Provider) (bid : Bid) : Booking :=
  { id := newId, requestId := request.id, bidId := some bid.id
    userId := request.userId, userName := request.userName
    providerId := provider.id, providerName := provider.name
    agreedPrice := bid.proposedAmount, status := "confirmed"
    completedByProvider := false, completedByUser := false
    userRating := none, userReview := none, messages := [] }

/-- The post-state of a successful `acceptBid`. -/
def acceptBidStore (newId : String) (s : Store) (request : ServiceRequest)
    (provider : Provider) (bid : Bid) : Store :=
  { saveRequest s (assignRequest request provider bid.proposedAmount) with
    bookings := (saveRequest s (assignRequest request provider bid.proposedAmount)).bookings
      ++ [bookingOfBid newId request provider bid] }

/-- The bid document created by `placeBid`. -/
def newBid (newId rid pid pname : String) (amt : Int)
    (note et : Option String) : Bid :=
  { id := newId, serviceRequestId := rid, providerId := pid
    providerName := pname, proposedAmount := amt, note := note
    estimatedTime := et, status := "pending" }

/-- The post-state of a successful `placeBid`: the bid saved, then the
request flipped to `bidding`. -/
def placeBidStore (newId rid pid pname : String) (amt : Int)
    (note et : Option String) (sr : ServiceRequest) (s : Store) : Store :=
  saveRequest { s with bids := s.bids ++ [newBid newId rid pid pname amt note et] }
    { sr with status := "bidding" }

/-- One server operation of the repository acting on the store: every
handler that writes any of the modelled collections (the remaining
handlers — auth, categories, the read-only GETs — do not write them). -/
inductive Step : Store → Store → Prop where
  | createReq (inp : CreateRequestInput) (newId : String) (s : Store) :
      Step s (createServiceRequest inp newId s).2
  | bid (rid pid pname : String) (amt : Int) (note et : Option String)
      (newId : String) (s : Store) :
      Step s (placeBid rid pid pname amt note et newId s).2
  | accept (bidId newId : String) (s : Store) :
      Step s (acceptBid bidId newId s).2
  | createBk (requestId : String) (bidId : Option String)
      (uid uname pid pname : String) (price : Int) (newId : String) (s : Store) :
      Step s (createBooking requestId bidId uid uname pid pname price newId s).2
  | updStatus (id status : String) (s : Store) :
      Step s (updateBookingStatus id status s).2
  | start (id : String) (s : Store) : Step s (startService id s).2
  | provComplete (id : String) (s : Store) :
      Step s (providerCompleteService id s).2
  | confirm (finalId : String) (rating : Int) (review : String) (now : Nat)
      (s : Store) : Step s (userConfirmBooking finalId rating review now s).2
  | sendMsg (id msg uid urole : String) (now : Nat) (s : Store) :
      Step s (sendBookingMessage id msg uid urole now s).2
  | updReqStatus (id status : String) (s : Store) :
      Step s (updateRequestStatusByProvider id status s)

/-- A store the running system can be in: reached by server operations
from a state with no bookings yet (users, providers, wallets, requests
and bids may be arbitrarily seeded). -/
def Reachable (s : Store) : Prop :=
  ∃ s0 : Store, s0.bookings = [] ∧ Relation.ReflTransGen Step s0 s

/-- The dual-confirmation invariant of a booking (spec §3):
`completedByUser` only after `completedByProvider`, and the
`payment-released` status only after `completedByProvider`. -/
def BookingInv (b : Booking) : Prop :=
  (b.completedByUser = true → b.completedByProvider = true) ∧
  (b.status = "payment-released" → b.completedByProvider = true)

/-- Every booking of the store satisfies `BookingInv`. -/
def StoreInv (s : Store) : Prop := ∀ b ∈ s.bookings, BookingInv b

/-! Concrete fixtures used by the witnesses. -/

/-- Example provider. -/
def pEx : Provider := { id := "p1", name := "Pat" }

/-- Second example provider. -/
def p2Ex : Provider := { id := "p2", name := "Quinn" }

/-- Example empty wallet owned by provider p1. -/
def wEx : Wallet :=
  { userId := "p1", balance := 0, heldBalance := 0, totalEarned := 0, transactions := [] }

/-- Example in-progress booking, provider-completed, price 1000. -/
def bEx : Booking :=
  { id := "bk1", requestId := "r1", bidId := some "bid1"
    userId := "u1", userName := "Uma", providerId := "p1", providerName := "Pat"
    agreedPrice := 1000, status := "in-progress"
    completedByProvider := true, completedByUser := false
    userRating := none, userReview := none, messages := [] }

/-- Store ready for a successful `userConfirmBooking`. -/
def confirmStore : Store :=
  { requests := [], bids := [], bookings := [bEx], wallets := [wEx], providers := [pEx] }

/-- Same as `confirmStore` but the provider has no wallet. -/
def noWalletStore : Store :=
  { requests := [], bids := [], bookings := [bEx], wallets := [], providers := [pEx] }

/-- The store after the successful first confirmation on `confirmStore`. -/
def confirmStore2 : Store := (userConfirmBooking "bk1" 5 "good" 1 confirmStore).2

/-- A booking-free initial store. -/
def initStore : Store :=
  { requests := [], bids := [], bookings := [], wallets := [wEx], providers := [pEx] }

/-- `initStore` after one direct `createBooking` (the booking is fresh:
neither party has completed). -/
def c4Store : Store :=
  (createBooking "r1" (some "bid1") "u1" "Uma" "p1" "Pat" 100 "bk1" initStore).2

/-- Example open bidding request. -/
def reqEx : ServiceRequest :=
  { id := "r1", userId := "u1", userName := "Uma"
    categoryId := "c1", categoryName := "Cleaning", description := "deep clean"
    requestType := "bidding", fixedAmount := none
    biddingEndDate := some 99, minBidAmount := some 100, maxBidAmount := some 1000
    status := "open", assignedProviderId := none, assignedProviderName := none
    finalAmount := none }

/-- Store with the open bidding request and two providers, no bids yet. -/
def bidStore0 : Store :=
  { requests := [reqEx], bids := [], bookings := [], wallets := [], providers := [pEx, p2Ex] }

/-- `bidStore0` after provider p1 successfully bids 500 on r1. -/
def bidStore1 : Store := (placeBid "r1" "p1" "Pat" 500 none none "bid1" bidStore0).2

/-- Example pending bid of 450 by p1 on r1. -/
def bidEx : Bid :=
  { id := "bid1", serviceRequestId := "r1", providerId := "p1", providerName := "Pat"
    proposedAmount := 450, note := none, estimatedTime := none, status := "pending" }

/-- Store ready for a successful `acceptBid` on `bidEx`. -/
def acceptStore : Store :=
  { requests := [reqEx], bids := [bidEx], bookings := [], wallets := [], providers := [pEx, p2Ex] }

/-- Request-creation input: fixed type with the amount left out. -/
def fixedNoAmountInput : CreateRequestInput :=
  { userId := "u1", userName := "Uma", categoryId := "c1", categoryName := "Cleaning"
    description := "fix sink", requestType := "fixed", fixedAmount := none
    biddingEndDate := none, minBidAmount := none, maxBidAmount := none }

/-- Request-creation input: fixed type with an amount supplied. -/
def fixedWithAmountInput : CreateRequestInput :=
  { fixedNoAmountInput with fixedAmount := some 50 }

/-! Helper lemmas about the persistence primitives. -/

/-- Replacing every element matching `p` by an element that itself
matches `p` makes `find? p` return the replacement, provided it
returned something before. -/
theorem find?_replace {α : Type} (p : α → Bool) (b' : α) (hp : p b' = true)
    (l : List α) : ∀ b : α, l.find? p = some b →
      (l.map fun x => if p x then b' else x).find? p = some b' := by
  induction l with
  | nil => intro b h; simp at h
  | cons x xs ih =>
    intro b h
    rw [List.map_cons]
    by_cases hx : p x = true
    · rw [if_pos hx, List.find?_cons_of_pos _ hp]
    · have hx' : ¬ (p x = true) := hx
      rw [if_neg hx', List.find?_cons_of_neg _ hx']
      rw [List.find?_cons_of_neg _ hx'] at h
      exact ih b h

/-- Wallets are untouched by a booking save. -/
theorem findWallet_saveBooking (s : Store) (b' : Booking) (uid : String) :
    findWallet (saveBooking s b') uid = findWallet s uid := rfl

/-- Bookings are untouched by a wallet save. -/
theorem findBooking_saveWallet (s : Store) (w' : Wallet) (id : String) :
    findBooking (saveWallet s w') id = findBooking s id := rfl

/-- Saving an updated booking document makes it the one found under the
original id. -/
theorem findBooking_save (s : Store) (id : String) (b b' : Booking)
    (h : findBooking s id = some b) (hid : b'.id = b.id) :
    findBooking (saveBooking s b') id = some b' := by
  have hbid : b.id = id := by simpa using List.find?_some h
  have hb' : (b'.id == id) = true := by rw [hid, hbid]; simp
  have hfun : (fun x : Booking => if x.id == b'.id then b' else x)
      = (fun x : Booking => if x.id == id then b' else x) := by
    funext x; rw [hid, hbid]
  unfold findBooking saveBooking
  rw [hfun]
  exact find?_replace _ b' hb' s.bookings b h

/-- Saving an updated request document makes it the one found under the
original id. -/
theorem findRequest_save (s : Store) (id : String) (r r' : ServiceRequest)
    (h : findRequest s id = some r) (hid : r'.id = r.id) :
    findRequest (saveRequest s r') id = some r' := by
  have hrid : r.id = id := by simpa using List.find?_some h
  have hr' : (r'.id == id) = true := by rw [hid, hrid]; simp
  have hfun : (fun x : ServiceRequest => if x.id == r'.id then r' else x)
      = (fun x : ServiceRequest => if x.id == id then r' else x) := by
    funext x; rw [hid, hrid]
  unfold findRequest saveRequest
  rw [hfun]
  exact find?_replace _ r' hr' s.requests r h

/-- Saving an updated wallet document makes it the one found under the
original owner id. -/
theorem findWallet_save (s : Store) (uid : String) (w w' : Wallet)
    (h : findWallet s uid = some w) (hid : w'.userId = w.userId) :
    findWallet (saveWallet s w') uid = some w' := by
  have huid : w.userId = uid := by simpa using List.find?_some h
  have hw' : (w'.userId == uid) = true := by rw [hid, huid]; simp
  have hfun : (fun x : Wallet => if x.userId == w'.userId then w' else x)
      = (fun x : Wallet => if x.userId == uid then w' else x) := by
    funext x; rw [hid, huid]
  unfold findWallet saveWallet
  rw [hfun]
  exact find?_replace _ w' hw' s.wallets w h

/-! Preservation of the dual-confirmation invariant by every operation. -/

/-- Two stores with the same bookings share `StoreInv`. -/
theorem storeInv_bookings {s s' : Store} (h : s'.bookings = s.bookings)
    (hs : StoreInv s) : StoreInv s' := by
  intro b hb; exact hs b (h ▸ hb)

/-- Saving a booking satisfying the invariant preserves `StoreInv`. -/
theorem storeInv_save {s : Store} {b' : Booking} (hs : StoreInv s)
    (hb' : BookingInv b') : StoreInv (saveBooking s b') := by
  intro b hb
  simp only [saveBooking, List.mem_map] at hb
  obtain ⟨x, hx, hxe⟩ := hb
  by_cases hc : (x.id == b'.id) = true
  · rw [if_pos hc] at hxe; exact hxe ▸ hb'
  · rw [if_neg hc] at hxe; exact hxe ▸ hs x hx

/-- Appending a booking satisfying the invariant preserves `StoreInv`. -/
theorem storeInv_append {s s' : Store} {bk : Booking}
    (h : s'.bookings = s.bookings ++ [bk]) (hs : StoreInv s)
    (hbk : BookingInv bk) : StoreInv s' := by
  intro b hb
  rw [h] at hb
  rcases List.mem_append.1 hb with h1 | h1
  · exact hs b h1
  · rw [List.mem_singleton] at h1; exact h1 ▸ hbk

/-- A freshly created booking (status `confirmed`, both flags false)
satisfies the invariant. -/
theorem bookingInv_fresh {b : Booking} (h1 : b.completedByUser = false)
    (h2 : b.status = "confirmed") : BookingInv b := by
  constructor
  · intro h; rw [h1] at h; exact absurd h (by decide)
  · intro h; rw [h2] at h; exact absurd h (by decide)

/-- `placeBid` never writes bookings. -/
theorem placeBid_bookings (rid pid pname : String) (amt : Int)
    (note et : Option String) (newId : String) (s : Store) :
    (placeBid rid pid pname amt note et newId s).2.bookings = s.bookings := by
  unfold placeBid
  split
  · rfl
  · split
    · rfl
    · split
      · rfl
      · split
        · rfl
        · dsimp only
          split <;> rfl

/-- `updateRequestStatusByProvider` never writes bookings. -/
theorem updateRequestStatusByProvider_bookings (id status : String) (s : Store) :
    (updateRequestStatusByProvider id status s).bookings = s.bookings := by
  unfold updateRequestStatusByProvider
  split <;> rfl

/-- `acceptBid` preserves the invariant. -/
theorem acceptBid_inv (bidId newId : String) (s : Store) (hs : StoreInv s) :
    StoreInv (acceptBid bidId newId s).2 := by
  unfold acceptBid
  split
  · exact hs
  · split
    · exact hs
    · split
      · exact hs
      · split
        · exact hs
        · split
          · exact hs
          · exact storeInv_append rfl hs (bookingInv_fresh rfl rfl)

/-- `createBooking` preserves the invariant. -/
theorem createBooking_inv (requestId : String) (bidId : Option String)
    (uid uname pid pname : String) (price : Int) (newId : String)
    (s : Store) (hs : StoreInv s) :
    StoreInv (createBooking requestId bidId uid uname pid pname price newId s).2 := by
  unfold createBooking
  split
  · exact hs
  · exact storeInv_append rfl hs (bookingInv_fresh rfl rfl)

/-- `updateBookingStatus` preserves the invariant: the whitelist does not
contain `payment-released`. -/
theorem updateBookingStatus_inv (id status : String) (s : Store)
    (hs : StoreInv s) : StoreInv (updateBookingStatus id status s).2 := by
  unfold updateBookingStatus
  split
  · exact hs
  · next hmem =>
      split
      · exact hs
      · next b hb =>
          refine storeInv_save hs ?_
          have hmem' : status ∈ validStatuses := not_not.1 hmem
          have hbi := hs b (List.mem_of_find?_eq_some hb)
          refine ⟨fun h => hbi.1 h, fun h => ?_⟩
          exfalso
          have hpr : status = "payment-released" := h
          rw [hpr] at hmem'
          exact absurd hmem' (by decide)

/-- `startService` preserves the invariant. -/
theorem startService_inv (id : String) (s : Store) (hs : StoreInv s) :
    StoreInv (startService id s).2 := by
  unfold startService
  split
  · exact hs
  · next b hb =>
      refine storeInv_save hs ?_
      have hbi := hs b (List.mem_of_find?_eq_some hb)
      refine ⟨fun h => hbi.1 h, fun h => ?_⟩
      exfalso
      have : ("in-progress" : String) = "payment-released" := h
      exact absurd this (by decide)

/-- `providerCompleteService` preserves the invariant. -/
theorem providerCompleteService_inv (id : String) (s : Store)
    (hs : StoreInv s) : StoreInv (providerCompleteService id s).2 := by
  unfold providerCompleteService
  split
  · exact hs
  · exact storeInv_save hs ⟨fun _ => rfl, fun _ => rfl⟩

/-- `sendBookingMessage` preserves the invariant. -/
theorem sendBookingMessage_inv (id msg uid urole : String) (now : Nat)
    (s : Store) (hs : StoreInv s) :
    StoreInv (sendBookingMessage id msg uid urole now s).2 := by
  unfold sendBookingMessage
  split
  · exact hs
  · split
    · exact hs
    · next b hb =>
        split
        · exact hs
        · have hbi := hs b (List.mem_of_find?_eq_some hb)
          exact storeInv_save hs ⟨fun h => hbi.1 h, fun h => hbi.2 h⟩

/-- `userConfirmBooking` preserves the invariant: both branches of the
settlement happen after the booking save, and the saved booking has
`completedByProvider = true`. -/
theorem userConfirmBooking_inv (finalId : String) (rating : Int)
    (review : String) (now : Nat) (s : Store) (hs : StoreInv s) :
    StoreInv (userConfirmBooking finalId rating review now s).2 := by
  unfold userConfirmBooking
  split
  · exact hs
  · next b hb =>
      split
      · exact hs
      · split
        · exact hs
        · next hprov =>
            have hp : b.completedByProvider = true := by
              cases hcb : b.completedByProvider
              · exact absurd hcb hprov
              · rfl
            dsimp only
            split
            · exact storeInv_save hs ⟨fun _ => hp, fun _ => hp⟩
            · exact storeInv_bookings rfl
                (storeInv_save hs ⟨fun _ => hp, fun _ => hp⟩)

/-- Every `Step` preserves the invariant. -/
theorem stepInv {s s' : Store} (hstep : Step s s') (hs : StoreInv s) :
    StoreInv s' := by
  cases hstep with
  | createReq inp newId => exact storeInv_bookings rfl hs
  | bid rid pid pname amt note et newId =>
      exact storeInv_bookings (placeBid_bookings rid pid pname amt note et newId s) hs
  | accept bidId newId => exact acceptBid_inv bidId newId s hs
  | createBk requestId bidId uid uname pid pname price newId =>
      exact createBooking_inv requestId bidId uid uname pid pname price newId s hs
  | updStatus id status => exact updateBookingStatus_inv id status s hs
  | start id => exact startService_inv id s hs
  | provComplete id => exact providerCompleteService_inv id s hs
  | confirm finalId rating review now =>
      exact userConfirmBooking_inv finalId rating review now s hs
  | sendMsg id msg uid urole now => exact sendBookingMessage_inv id msg uid urole now s hs
  | updReqStatus id status =>
      exact storeInv_bookings (updateRequestStatusByProvider_bookings id status s) hs

/-- Every reachable store satisfies the dual-confirmation invariant. -/
theorem storeInv_of_reachable {s : Store} (h : Reachable s) : StoreInv s := by
  obtain ⟨s0, h0, hsteps⟩ := h
  induction hsteps with
  | refl => intro b hb; rw [h0] at hb; exact absurd hb (List.not_mem_nil b)
  | tail hst step ih => exact stepInv step ih

/-- Inversion of a successful `userConfirmBooking`: the preconditions all
held and the result is exactly the saved booking plus the credited
wallet. -/
theorem userConfirmBooking_ok_inv {finalId : String} {rating : Int}
    {review : String} {now : Nat} {s : Store} {b' : Booking} {s2 : Store}
    (h : userConfirmBooking finalId rating review now s = (.ok b', s2)) :
    ∃ b w, findBooking s finalId = some b
      ∧ b.completedByProvider = true
      ∧ b.completedByUser = false
      ∧ b.status ≠ "payment-released"
      ∧ findWallet s b.providerId = some w
      ∧ b' = { b with
               completedByUser := true
               userRating := some rating
               userReview := some review
               status := "payment-released" }
      ∧ s2 = saveWallet (saveBooking s b')
          { w with
            balance := w.balance + b.agreedPrice
            totalEarned := w.totalEarned + b.agreedPrice
            transactions := w.transactions ++ [creditTxn finalId b.agreedPrice now] } := by
  unfold userConfirmBooking at h
  cases hfb : findBooking s finalId with
  | none => rw [hfb] at h; exact absurd h (by simp)
  | some b =>
    rw [hfb] at h
    dsimp only at h
    split at h
    · exact absurd h (by simp)
    next hcond =>
      split at h
      · exact absurd h (by simp)
      next hcond2 =>
        split at h
        · exact absurd h (by simp)
        next w hww =>
          simp only [Prod.mk.injEq, Except.ok.injEq] at h
          obtain ⟨hb', hs2⟩ := h
          push_neg at hcond
          obtain ⟨hst, huser⟩ := hcond
          have hprov : b.completedByProvider = true := by
            cases hcb : b.completedByProvider
            · exact absurd hcb hcond2
            · rfl
          have huser' : b.completedByUser = false := by
            cases hcb : b.completedByUser
            · rfl
            · exact absurd hcb huser
          refine ⟨b, w, rfl, hprov, huser', hst, hww, hb'.symm, ?_⟩
          rw [← hs2, ← hb']

/-- C1: for a booking with `completedByProvider` true, not yet
payment-released nor user-confirmed, whose provider has a wallet,
`userConfirmBooking` succeeds: it sets status `payment-released`,
`completedByUser`, the rating and review, credits the wallet's balance
and `totalEarned` by exactly `agreedPrice`, and appends exactly one
credit transaction referencing this booking. -/
theorem userConfirmBooking_success
    (finalId : String) (rating : Int) (review : String) (now : Nat)
    (s : Store) (b : Booking) (w : Wallet)
    (hb : findBooking s finalId = some b)
    (hprov : b.completedByProvider = true)
    (huser : b.completedByUser = false)
    (hst : b.status ≠ "payment-released")
    (hw : findWallet s b.providerId = some w) :
    ∃ b' w',
      userConfirmBooking finalId rating review now s
        = (.ok b', saveWallet (saveBooking s b') w')
      ∧ b'.status = "payment-released"
      ∧ b'.completedByUser = true
      ∧ b'.userRating = some rating
      ∧ b'.userReview = some review
      ∧ findBooking (saveWallet (saveBooking s b') w') finalId = some b'
      ∧ w'.userId = w.userId
      ∧ w'.balance = w.balance + b.agreedPrice
      ∧ w'.totalEarned = w.totalEarned + b.agreedPrice
      ∧ w'.transactions = w.transactions ++ [creditTxn finalId b.agreedPrice now]
      ∧ (creditTxn finalId b.agreedPrice now).type = "credit"
      ∧ (creditTxn finalId b.agreedPrice now).bookingId = some finalId
      ∧ findWallet (saveWallet (saveBooking s b') w') b.providerId = some w' := by
  have hcond : ¬ (b.status = "payment-released" ∨ b.completedByUser = true) := by
    rintro (h | h)
    · exact hst h
    · rw [huser] at h; exact absurd h (by decide)
  have hcond2 : ¬ (b.completedByProvider = false) := by
    rw [hprov]; decide
  refine ⟨{ b with
      completedByUser := true
      userRating := some rating
      userReview := some review
      status := "payment-released" },
    { w with
      balance := w.balance + b.agreedPrice
      totalEarned := w.totalEarned + b.agreedPrice
      transactions := w.transactions ++ [creditTxn finalId b.agreedPrice now] },
    ?_, rfl, rfl, rfl, rfl, ?_, rfl, rfl, rfl, rfl, rfl, rfl, ?_⟩
  · unfold userConfirmBooking
    rw [hb]
    dsimp only
    rw [if_neg hcond, if_neg hcond2]
    rw [show findWallet (saveBooking s { b with
        completedByUser := true
        userRating := some rating
        userReview := some review
        status := "payment-released" }) b.providerId = some w from hw]
  · rw [findBooking_saveWallet]
    exact findBooking_save s finalId b _ hb rfl
  · refine findWallet_save _ b.providerId w _ ?_ rfl
    rw [findWallet_saveBooking]
    exact hw

/-- C1 witness: the concrete confirmation of booking bk1 (price 1000)
on `confirmStore`. -/
theorem userConfirmBooking_success_witness :
    ∃ b' w',
      userConfirmBooking "bk1" 5 "good" 1 confirmStore
        = (.ok b', saveWallet (saveBooking confirmStore b') w')
      ∧ b'.status = "payment-released"
      ∧ b'.completedByUser = true
      ∧ b'.userRating = some 5
      ∧ b'.userReview = some "good"
      ∧ findBooking (saveWallet (saveBooking confirmStore b') w') "bk1" = some b'
      ∧ w'.userId = wEx.userId
      ∧ w'.balance = wEx.balance + bEx.agreedPrice
      ∧ w'.totalEarned = wEx.totalEarned + bEx.agreedPrice
      ∧ w'.transactions = wEx.transactions ++ [creditTxn "bk1" bEx.agreedPrice 1]
      ∧ (creditTxn "bk1" bEx.agreedPrice 1).type = "credit"
      ∧ (creditTxn "bk1" bEx.agreedPrice 1).bookingId = some "bk1"
      ∧ findWallet (saveWallet (saveBooking confirmStore b') w') bEx.providerId = some w' :=
  userConfirmBooking_success "bk1" 5 "good" 1 confirmStore bEx wEx rfl rfl rfl
    (by decide) rfl

/-- C3: after a first successful `userConfirmBooking`, a second call on
the same booking fails with Conflict and leaves the store unchanged, so
the provider wallet is credited exactly once across the two calls. -/
theorem userConfirmBooking_second_call_conflict
    (finalId : String) (r1 r2 : Int) (v1 v2 : String) (n1 n2 : Nat)
    (s s2 : Store) (b' : Booking)
    (h1 : userConfirmBooking finalId r1 v1 n1 s = (.ok b', s2)) :
    userConfirmBooking finalId r2 v2 n2 s2
      = (.error (.conflict "Booking already confirmed"), s2)
    ∧ ∀ b w, findBooking s finalId = some b → findWallet s b.providerId = some w →
        ∃ w2, findWallet s2 b.providerId = some w2
          ∧ w2.balance = w.balance + b.agreedPrice
          ∧ w2.totalEarned = w.totalEarned + b.agreedPrice
          ∧ w2.transactions = w.transactions ++ [creditTxn finalId b.agreedPrice n1] := by
  obtain ⟨b, w, hfb, hprov, huser, hst, hw, hb', hs2⟩ := userConfirmBooking_ok_inv h1
  constructor
  · have hfb2 : findBooking s2 finalId = some b' := by
      rw [hs2, findBooking_saveWallet]
      exact findBooking_save s finalId b b' hfb (by rw [hb'])
    unfold userConfirmBooking
    rw [hfb2]
    dsimp only
    rw [if_pos (Or.inl (show b'.status = "payment-released" by rw [hb']))]
  · intro b0 w0 hb0 hw0
    rw [hfb] at hb0
    injection hb0 with hb0
    subst hb0
    rw [hw] at hw0
    injection hw0 with hw0
    subst hw0
    refine ⟨{ w with
        balance := w.balance + b.agreedPrice
        totalEarned := w.totalEarned + b.agreedPrice
        transactions := w.transactions ++ [creditTxn finalId b.agreedPrice n1] },
      ?_, rfl, rfl, rfl⟩
    rw [hs2]
    refine findWallet_save _ b.providerId w _ ?_ rfl
    rw [findWallet_saveBooking]
    exact hw

/-- C3 witness: the second confirmation of bk1 on the post-state of the
first one. -/
theorem userConfirmBooking_second_call_conflict_witness :
    userConfirmBooking "bk1" 4 "x" 2 confirmStore2
      = (.error (.conflict "Booking already confirmed"), confirmStore2) :=
  (userConfirmBooking_second_call_conflict "bk1" 5 4 "good" "x" 1 2 confirmStore
    confirmStore2 _ rfl).1

/-- C4: on any reachable store, confirming a booking whose provider has
not completed the service fails with InvalidState and changes nothing
(the reachability invariant rules out `completedByUser` or
`payment-released` without `completedByProvider`). -/
theorem userConfirmBooking_requires_provider_completion
    (s : Store) (hreach : Reachable s) (finalId : String) {b : Booking}
    (hb : findBooking s finalId = some b)
    (hnp : b.completedByProvider = false)
    (rating : Int) (review : String) (now : Nat) :
    userConfirmBooking finalId rating review now s
      = (.error (.invalidState "Provider has not completed the service yet"), s) := by
  have hinv := storeInv_of_reachable hreach b (List.mem_of_find?_eq_some hb)
  have hu : b.completedByUser = false := by
    cases hcb : b.completedByUser
    · rfl
    · rw [hinv.1 hcb] at hnp; exact absurd hnp (by decide)
  have hst : b.status ≠ "payment-released" := by
    intro h
    rw [hinv.2 h] at hnp; exact absurd hnp (by decide)
  have hcond : ¬ (b.status = "payment-released" ∨ b.completedByUser = true) := by
    rintro (h | h)
    · exact hst h
    · rw [hu] at h; exact absurd h (by decide)
  unfold userConfirmBooking
  rw [hb]
  dsimp only
  rw [if_neg hcond, if_pos hnp]

/-- C4 witness: a freshly created booking on a reachable store. -/
theorem userConfirmBooking_requires_provider_completion_witness :
    userConfirmBooking "bk1" 5 "v" 9 c4Store
      = (.error (.invalidState "Provider has not completed the service yet"), c4Store) :=
  userConfirmBooking_requires_provider_completion c4Store
    ⟨initStore, rfl, Relation.ReflTransGen.single
      (Step.createBk "r1" (some "bid1") "u1" "Uma" "p1" "Pat" 100 "bk1" initStore)⟩
    "bk1" rfl rfl 5 "v" 9

/-- C7: when the preconditions hold but the provider has no wallet,
`userConfirmBooking` reports NotFound while the booking stays persisted
as `payment-released` with `completedByUser` true, and the wallets are
untouched. -/
theorem userConfirmBooking_missing_wallet
    (finalId : String) (rating : Int) (review : String) (now : Nat)
    (s : Store) (b : Booking)
    (hb : findBooking s finalId = some b)
    (hprov : b.completedByProvider = true)
    (huser : b.completedByUser = false)
    (hst : b.status ≠ "payment-released")
    (hw : findWallet s b.providerId = none) :
    ∃ b',
      userConfirmBooking finalId rating review now s
        = (.error (.notFound "Provider wallet not found"), saveBooking s b')
      ∧ b'.status = "payment-released"
      ∧ b'.completedByUser = true
      ∧ findBooking (saveBooking s b') finalId = some b'
      ∧ (saveBooking s b').wallets = s.wallets := by
  have hcond : ¬ (b.status = "payment-released" ∨ b.completedByUser = true) := by
    rintro (h | h)
    · exact hst h
    · rw [huser] at h; exact absurd h (by decide)
  have hcond2 : ¬ (b.completedByProvider = false) := by
    rw [hprov]; decide
  refine ⟨{ b with
      completedByUser := true
      userRating := some rating
      userReview := some review
      status := "payment-released" },
    ?_, rfl, rfl, ?_, rfl⟩
  · unfold userConfirmBooking
    rw [hb]
    dsimp only
    rw [if_neg hcond, if_neg hcond2]
    rw [show findWallet (saveBooking s { b with
        completedByUser := true
        userRating := some rating
        userReview := some review
        status := "payment-released" }) b.providerId = none from hw]
  · exact findBooking_save s finalId b _ hb rfl

/-- C7 witness: confirming bk1 on the walletless store. -/
theorem userConfirmBooking_missing_wallet_witness :
    ∃ b',
      userConfirmBooking "bk1" 5 "good" 1 noWalletStore
        = (.error (.notFound "Provider wallet not found"), saveBooking noWalletStore b')
      ∧ b'.status = "payment-released"
      ∧ b'.completedByUser = true
      ∧ findBooking (saveBooking noWalletStore b') "bk1" = some b'
      ∧ (saveBooking noWalletStore b').wallets = noWalletStore.wallets :=
  userConfirmBooking_missing_wallet "bk1" 5 "good" 1 noWalletStore bEx rfl rfl rfl
    (by decide) rfl

/-- C2: accepting a bid on an unassigned request assigns the request to
the bid's provider at the bid's amount and creates exactly one booking
for that bid (status `confirmed`, agreedPrice = proposedAmount); on an
already-assigned request it fails with InvalidState and creates
nothing. -/
theorem acceptBid_assigns_and_creates_booking
    (bidId newId : String) (s : Store) (bid : Bid) (request : ServiceRequest)
    (hne : bidId ≠ "")
    (hbid : findBid s bidId = some bid)
    (hreq : findRequest s bid.serviceRequestId = some request) :
    (∀ provider : Provider, request.status ≠ "assigned" →
      findProvider s bid.providerId = some provider →
      bookingsForBid s bidId = 0 →
      ∃ request' booking s',
        acceptBid bidId newId s = (.ok (request', booking), s')
        ∧ request'.status = "assigned"
        ∧ request'.assignedProviderId = some provider.id
        ∧ request'.finalAmount = some bid.proposedAmount
        ∧ booking.bidId = some bid.id
        ∧ booking.status = "confirmed"
        ∧ booking.agreedPrice = bid.proposedAmount
        ∧ findRequest s' bid.serviceRequestId = some request'
        ∧ bookingsForBid s' bidId = 1)
    ∧ (request.status = "assigned" →
        acceptBid bidId newId s = (.error (.invalidState "Request already assigned"), s)) := by
  have hbidid : bid.id = bidId := by simpa using List.find?_some hbid
  constructor
  · intro provider hna hp hzero
    refine ⟨assignRequest request provider bid.proposedAmount,
      bookingOfBid newId request provider bid,
      acceptBidStore newId s request provider bid,
      ?_, rfl, rfl, rfl, rfl, rfl, rfl, ?_, ?_⟩
    · unfold acceptBid
      rw [if_neg hne, hbid]
      dsimp only
      rw [hreq]
      dsimp only
      rw [if_neg hna, hp]
      rfl
    · exact findRequest_save s bid.serviceRequestId request _ hreq rfl
    · have hbks : (acceptBidStore newId s request provider bid).bookings
          = s.bookings ++ [bookingOfBid newId request provider bid] := rfl
      unfold bookingsForBid
      rw [hbks, List.filter_append, List.length_append]
      unfold bookingsForBid at hzero
      rw [hzero]
      simp [bookingOfBid, hbidid]
  · intro hassigned
    unfold acceptBid
    rw [if_neg hne, hbid]
    dsimp only
    rw [hreq]
    dsimp only
    rw [if_pos hassigned]

/-- C2 witness: accepting bidEx (450 by p1) on acceptStore. -/
theorem acceptBid_assigns_and_creates_booking_witness :
    ∃ request' booking s',
      acceptBid "bid1" "bk9" acceptStore = (.ok (request', booking), s')
      ∧ request'.status = "assigned"
      ∧ request'.assignedProviderId = some pEx.id
      ∧ request'.finalAmount = some bidEx.proposedAmount
      ∧ booking.bidId = some bidEx.id
      ∧ booking.status = "confirmed"
      ∧ booking.agreedPrice = bidEx.proposedAmount
      ∧ findRequest s' bidEx.serviceRequestId = some request'
      ∧ bookingsForBid s' "bid1" = 1 :=
  (acceptBid_assigns_and_creates_booking "bid1" "bk9" acceptStore bidEx reqEx
    (by decide) rfl rfl).1 pEx (by decide) rfl rfl

/-- C5 (divergence): on a fresh bidding request, P1's bid of 500
succeeds and flips the request status to `bidding`, after which P2's bid
of 450 is rejected with "Bidding is closed for this request" (the
`status === 'open'` guard), so `getBidsByRequest` holds P1's bid only —
the spec scenario's second bid can never be placed. -/
theorem placeBid_sequential_bids_scenario :
    (placeBid "r1" "p1" "Pat" 500 none none "bid1" bidStore0).1
      = .ok { id := "bid1", serviceRequestId := "r1", providerId := "p1"
              providerName := "Pat", proposedAmount := 500, note := none
              estimatedTime := none, status := "pending" }
    ∧ (findRequest bidStore1 "r1").map (fun r => r.status) = some "bidding"
    ∧ placeBid "r1" "p2" "Quinn" 450 none none "bid2" bidStore1
      = (.error (.invalidState "Bidding is closed for this request"), bidStore1)
    ∧ getBidsByRequest "r1" bidStore1
      = [{ id := "bid1", serviceRequestId := "r1", providerId := "p1"
           providerName := "Pat", proposedAmount := 500, note := none
           estimatedTime := none, status := "pending" }] :=
  ⟨rfl, rfl, rfl, rfl⟩

/-- C6: the precondition cascade of `placeBid`: NotFound for a missing
request; InvalidState "not open for bidding" for a non-bidding request;
InvalidState "bidding closed" for a bidding request whose status is not
`open`; Conflict for a repeat bid by the same provider; otherwise a
pending bid is created and the request status flips to `bidding`. -/
theorem placeBid_preconditions
    (rid pid pname : String) (amt : Int) (note et : Option String)
    (newId : String) (s : Store) :
    (findRequest s rid = none →
      placeBid rid pid pname amt note et newId s
        = (.error (.notFound "Service request not found"), s))
    ∧ ∀ sr, findRequest s rid = some sr →
        (sr.requestType ≠ "bidding" →
          placeBid rid pid pname amt note et newId s
            = (.error (.invalidState "This request is not open for bidding"), s))
        ∧ (sr.requestType = "bidding" → sr.status ≠ "open" →
          placeBid rid pid pname amt note et newId s
            = (.error (.invalidState "Bidding is closed for this request"), s))
        ∧ (sr.requestType = "bidding" → sr.status = "open" →
          ∀ eb, s.bids.find? (fun b =>
              b.serviceRequestId == rid && b.providerId == pid) = some eb →
            placeBid rid pid pname amt note et newId s
              = (.error (.conflict "You have already placed a bid"), s))
        ∧ (sr.requestType = "bidding" → sr.status = "open" →
          s.bids.find? (fun b =>
              b.serviceRequestId == rid && b.providerId == pid) = none →
          ∃ bid s', placeBid rid pid pname amt note et newId s = (.ok bid, s')
            ∧ bid.status = "pending"
            ∧ bid.proposedAmount = amt
            ∧ findRequest s' rid = some { sr with status := "bidding" }) := by
  constructor
  · intro hnone
    unfold placeBid
    rw [hnone]
  · intro sr hsr
    refine ⟨?_, ?_, ?_, ?_⟩
    · intro htype
      unfold placeBid
      rw [hsr]
      dsimp only
      rw [if_pos htype]
    · intro htype hstat
      unfold placeBid
      rw [hsr]
      dsimp only
      rw [if_neg (not_not_intro htype), if_pos hstat]
    · intro htype hstat eb heb
      unfold placeBid
      rw [hsr]
      dsimp only
      rw [if_neg (not_not_intro htype), if_neg (not_not_intro hstat), heb]
    · intro htype hstat hnone
      refine ⟨newBid newId rid pid pname amt note et,
        placeBidStore newId rid pid pname amt note et sr s, ?_, rfl, rfl, ?_⟩
      · unfold placeBid
        rw [hsr]
        dsimp only
        rw [if_neg (not_not_intro htype), if_neg (not_not_intro hstat), hnone]
        dsimp only
        rw [if_pos hstat]
        rfl
      · refine findRequest_save _ rid sr _ ?_ rfl
        exact hsr

/-- C6 witness: the cascade's success leg at the concrete bidStore0. -/
theorem placeBid_preconditions_witness :
    ∃ bid s', placeBid "r1" "p1" "Pat" 500 none none "bid1" bidStore0 = (.ok bid, s')
      ∧ bid.status = "pending"
      ∧ bid.proposedAmount = 500
      ∧ findRequest s' "r1" = some { reqEx with status := "bidding" } :=
  (((placeBid_preconditions "r1" "p1" "Pat" 500 none none "bid1" bidStore0).2
    reqEx rfl).2.2.2) rfl rfl rfl

/-- C8: `sendBookingMessage` rejects blank text (ValidationFailure) and
non-parties (Forbidden), otherwise appends exactly one trimmed message;
`getBookingMessages` returns the stored list in insertion order (empty
when none). -/
theorem bookingMessages_spec
    (id msg uid urole : String) (now : Nat) (s : Store) :
    (jsTrim msg = "" →
      sendBookingMessage id msg uid urole now s
        = (.error (.validationFailure "Message cannot be empty"), s))
    ∧ ∀ b, findBooking s id = some b →
        getBookingMessages id s = .ok b.messages
        ∧ (jsTrim msg ≠ "" →
            (b.userId ≠ uid → b.providerId ≠ uid →
              sendBookingMessage id msg uid urole now s
                = (.error (.forbidden "Unauthorized"), s))
            ∧ (b.userId = uid ∨ b.providerId = uid →
              ∃ b', sendBookingMessage id msg uid urole now s
                  = (.ok b'.messages, saveBooking s b')
                ∧ b'.messages = b.messages ++
                    [{ senderRole := urole, senderId := uid
                       text := jsTrim msg, createdAt := now }]
                ∧ getBookingMessages id (saveBooking s b')
                    = .ok (b.messages ++
                        [{ senderRole := urole, senderId := uid
                           text := jsTrim msg, createdAt := now }]))) := by
  constructor
  · intro hblank
    unfold sendBookingMessage
    rw [if_pos hblank]
  · intro b hb
    refine ⟨?_, ?_⟩
    · unfold getBookingMessages
      rw [hb]
    · intro hblank
      constructor
      · intro h1 h2
        unfold sendBookingMessage
        rw [if_neg hblank, hb]
        dsimp only
        rw [if_pos ⟨h1, h2⟩]
      · intro hparty
        have hcond : ¬ (b.userId ≠ uid ∧ b.providerId ≠ uid) := by
          rcases hparty with h | h
          · exact fun hc => hc.1 h
          · exact fun hc => hc.2 h
        refine ⟨{ b with messages := b.messages ++
            [{ senderRole := urole, senderId := uid
               text := jsTrim msg, createdAt := now }] }, ?_, rfl, ?_⟩
        · unfold sendBookingMessage
          rw [if_neg hblank, hb]
          dsimp only
          rw [if_neg hcond]
        · unfold getBookingMessages
          rw [findBooking_save s id b { b with messages := b.messages ++
              [{ senderRole := urole, senderId := uid
                 text := jsTrim msg, createdAt := now }] } hb rfl]

/-- C8 witness: u1 messages bk1 on confirmStore. -/
theorem bookingMessages_spec_witness :
    ∃ b', sendBookingMessage "bk1" "  hi there " "u1" "user" 7 confirmStore
        = (.ok b'.messages, saveBooking confirmStore b')
      ∧ b'.messages = bEx.messages ++
          [{ senderRole := "user", senderId := "u1"
             text := jsTrim "  hi there ", createdAt := 7 }]
      ∧ getBookingMessages "bk1" (saveBooking confirmStore b')
          = .ok (bEx.messages ++
              [{ senderRole := "user", senderId := "u1"
                 text := jsTrim "  hi there ", createdAt := 7 }]) :=
  (((bookingMessages_spec "bk1" "  hi there " "u1" "user" 7 confirmStore).2
    bEx rfl).2 (by decide)).2 (Or.inl rfl)

/-- C9 counterexample: a fixed-type request created with the amount left
out of the input has `requestType = fixed` yet `fixedAmount = none`, so
the claimed equivalence fails in the right-to-left direction. -/
theorem createServiceRequest_fixed_null_cex :
    (createServiceRequest fixedNoAmountInput "r9" initStore).1.requestType = "fixed"
    ∧ (createServiceRequest fixedNoAmountInput "r9" initStore).1.fixedAmount = none :=
  ⟨rfl, rfl⟩

/-- C9 (amended): a non-null `fixedAmount` implies `requestType = fixed`
and non-null bidding fields imply `requestType = bidding`; the converse
for `fixedAmount` holds exactly when the input supplied an amount. -/
theorem createServiceRequest_conditional_fields
    (inp : CreateRequestInput) (newId : String) (s : Store) :
    ((createServiceRequest inp newId s).1.fixedAmount ≠ none →
      (createServiceRequest inp newId s).1.requestType = "fixed")
    ∧ ((createServiceRequest inp newId s).1.minBidAmount ≠ none ∨
       (createServiceRequest inp newId s).1.maxBidAmount ≠ none ∨
       (createServiceRequest inp newId s).1.biddingEndDate ≠ none →
      (createServiceRequest inp newId s).1.requestType = "bidding")
    ∧ (inp.fixedAmount ≠ none →
      ((createServiceRequest inp newId s).1.fixedAmount ≠ none ↔
        (createServiceRequest inp newId s).1.requestType = "fixed")) := by
  unfold createServiceRequest
  dsimp only
  refine ⟨?_, ?_, ?_⟩
  · intro hne
    by_cases h : inp.requestType = "fixed"
    · exact h
    · rw [if_neg h] at hne; exact absurd rfl hne
  · intro hne
    by_cases h : inp.requestType = "bidding"
    · exact h
    · rcases hne with hne | hne | hne <;>
        (rw [if_neg h] at hne; exact absurd rfl hne)
  · intro hinp
    constructor
    · intro hne
      by_cases h : inp.requestType = "fixed"
      · exact h
      · rw [if_neg h] at hne; exact absurd rfl hne
    · intro h
      rw [if_pos h]
      exact hinp

/-- C9 witness: with the amount supplied the equivalence holds. -/
theorem createServiceRequest_conditional_fields_witness :
    (createServiceRequest fixedWithAmountInput "r9" initStore).1.fixedAmount ≠ none ↔
      (createServiceRequest fixedWithAmountInput "r9" initStore).1.requestType = "fixed" :=
  (createServiceRequest_conditional_fields fixedWithAmountInput "r9" initStore).2.2
    (by decide)

/-- C10: `updateBookingStatus` rejects any status outside the whitelist
(leaving the store untouched), the whitelist excludes `payment-released`,
and any successful call writes a whitelisted status — so the generic
endpoint can never produce `payment-released`. -/
theorem updateBookingStatus_whitelist
    (id status : String) (s : Store) (h : status ∉ validStatuses) :
    updateBookingStatus id status s = (.error (.validationFailure "Invalid status"), s)
    ∧ "payment-released" ∉ validStatuses
    ∧ ∀ st b' s', updateBookingStatus id st s = (.ok b', s') →
        st ∈ validStatuses ∧ b'.status = st := by
  refine ⟨?_, by decide, ?_⟩
  · unfold updateBookingStatus
    rw [if_pos h]
  · intro st b' s' hok
    unfold updateBookingStatus at hok
    split at hok
    · exact absurd hok (by simp)
    next hmem =>
      split at hok
      · exact absurd hok (by simp)
      next b hb =>
        simp only [Prod.mk.injEq, Except.ok.injEq] at hok
        obtain ⟨hb', _⟩ := hok
        exact ⟨not_not.1 hmem, by rw [← hb']⟩

/-- C10 witness: setting payment-released through the generic endpoint
is rejected. -/
theorem updateBookingStatus_whitelist_witness :
    updateBookingStatus "bk1" "payment-released" confirmStore
      = (.error (.validationFailure "Invalid status"), confirmStore) :=
  (updateBookingStatus_whitelist "bk1" "payment-released" confirmStore (by decide)).1

end EasyServe
